import Mathlib

/-!
Verification of the device-protocol layer of a 2-key USB HID keypad
controller, embedded from two Python scripts: `led_control.py` and
`program_key.py`.  Pure byte-building code is embedded as functions on
`List Nat` (one `Nat` per byte); the HID transport is embedded as a
scripted state (`HidState`): a list of write results still pending and a
log of the 64-byte payloads written so far, and config reads are a list
of pairs (reported byte count, 64-byte buffer contents).
-/

/-- Fixed body length, `DATA_LEN = 0x35` in both scripts. -/
def DATA_LEN : Nat := 53

/-- Framing performed inside `hid_send` (identical in `led_control.py`
lines 90-105 and `program_key.py` lines 158-188): zero-pad the body to
`DATA_LEN` bytes if shorter, truncate to `DATA_LEN` if longer, prepend a
length byte (always 53 after the pad/truncate), then zero-pad the whole
payload to 64 bytes. -/
def hid_send_frame (data : List Nat) : List Nat :=
  let d := if data.length < DATA_LEN
    then data ++ List.replicate (DATA_LEN - data.length) 0
    else data
  let d := d.take DATA_LEN
  let payload := d.length :: d
  payload ++ List.replicate (64 - payload.length) 0

/-- Scripted HID transport: `pending` holds the integer results the next
`hid_write` calls will report, in order; `written` logs each 64-byte
payload handed to `hid_write`. -/
structure HidState where
  pending : List Int
  written : List (List Nat)
deriving DecidableEq

/-- One `hidapi.hid_write` call: logs the payload and reports the next
scripted result (0 once the script is exhausted). -/
def hid_write (st : HidState) (payload : List Nat) : Int × HidState :=
  match st.pending with
  | r :: rest => (r, ⟨rest, st.written ++ [payload]⟩)
  | [] => (0, ⟨[], st.written ++ [payload]⟩)

/-- `hid_send(handle, data)` from both scripts: frames the body and does
one `hid_write`, returning that write's result.  The 20 ms sleep has no
observable effect in the embedding. -/
def hid_send (st : HidState) (data : List Nat) : Int × HidState :=
  hid_write st (hid_send_frame data)

/-- Body built by `set_rgb_mode` (`led_control.py` line 114):
`data = [0x57, mode_index]`. -/
def set_rgb_mode_body (mode_index : Nat) : List Nat := [0x57, mode_index]

/-- Body built by `set_custom_color` (`led_control.py` line 131):
`data = [0x70, r, g, b]` — in the R, G, B argument order. -/
def set_custom_color_body (r g b : Nat) : List Nat := [0x70, r, g, b]

/-- `set_rgb_mode` (`led_control.py` lines 108-122): sends the mode-select
body twice and returns `result > 0 and result2 > 0`. -/
def set_rgb_mode (st : HidState) (mode_index : Nat) : Bool × HidState :=
  let data := set_rgb_mode_body mode_index
  let p1 := hid_send st data
  let p2 := hid_send p1.2 data
  (decide (p1.1 > 0) && decide (p2.1 > 0), p2.2)

/-- `set_custom_color` (`led_control.py` lines 125-139): sends the color
body twice and returns `result > 0 and result2 > 0`. -/
def set_custom_color (st : HidState) (r g b : Nat) : Bool × HidState :=
  let data := set_custom_color_body r g b
  let p1 := hid_send st data
  let p2 := hid_send p1.2 data
  (decide (p1.1 > 0) && decide (p2.1 > 0), p2.2)

/-- One enumerated HID interface descriptor (`hid_device_info` in both
scripts).  The wide-character string fields and the `next` pointer are
not modelled: the code never reads the former, and the linked list is
embedded as a `List` of descriptors in enumeration order. -/
structure hid_device_info where
  path : String
  vendor_id : Nat
  product_id : Nat
  usage_page : Nat
  usage : Nat
  interface_number : Int
deriving DecidableEq

/-- `find_device` (identical in `led_control.py` lines 68-87 and
`program_key.py` lines 117-136): walk the enumerated descriptors in
order and return the path of the first whose usage page is 0xFF00, or
`none` when the list is exhausted. -/
def find_device (devs : List hid_device_info) : Option String :=
  match devs with
  | [] => none
  | d :: rest => if d.usage_page = 0xFF00 then some d.path else find_device rest

/-- The body of the `read_config` read loop (`program_key.py` lines
149-154): perform `n` scripted reads; each read reports an integer byte
count and a 64-byte buffer; a read with a positive count appends
`bytes(buf.raw[:result])`, any other count appends nothing. -/
def read_config_loop : Nat → List (Int × List Nat) → List (List Nat)
  | 0, _ => []
  | _ + 1, [] => []
  | n + 1, (r, buf) :: rest =>
    if 0 < r then buf.take r.toNat :: read_config_loop n rest
    else read_config_loop n rest

/-- `read_config` (`program_key.py` lines 139-155): after writing the
0x55 read command (not modelled here; it does not affect the returned
value), run the read loop exactly 6 times and return the collected
buffers. -/
def read_config (reads : List (Int × List Nat)) : List (List Nat) :=
  read_config_loop 6 reads

/-- The single-quote character as a one-character string (the literal
would clutter the table). -/
def squote : String := String.singleton (Char.ofNat 39)

/-- `KEY_CODES` (`program_key.py` lines 21-35), in source order.  Keys
are the exact Python dict keys (single characters and named keys), and
the values are the exact firmware keycodes. -/
def KEY_CODES : List (String × Nat) :=
  [("a", 0x04), ("b", 0x05), ("c", 0x06), ("d", 0x07), ("e", 0x08), ("f", 0x09),
   ("g", 0x0A), ("h", 0x0B), ("i", 0x0C), ("j", 0x0D), ("k", 0x0E), ("l", 0x0F),
   ("m", 0x10), ("n", 0x11), ("o", 0x12), ("p", 0x13), ("q", 0x14), ("r", 0x15),
   ("s", 0x16), ("t", 0x17), ("u", 0x18), ("v", 0x19), ("w", 0x1A), ("x", 0x1B),
   ("y", 0x1C), ("z", 0x1D),
   ("1", 0x1E), ("2", 0x1F), ("3", 0x20), ("4", 0x21), ("5", 0x22), ("6", 0x23),
   ("7", 0x24), ("8", 0x25), ("9", 0x26), ("0", 0x27),
   ("enter", 0x28), ("esc", 0x29), ("backspace", 0x2A), ("tab", 0x2B), ("space", 0x2C),
   (" ", 0x2C),
   ("-", 0x2D), ("=", 0x2E), ("[", 0x2F), ("]", 0x30), ("\\", 0x31),
   (";", 0x33), (squote, 0x34), ("`", 0x35), (",", 0x36), (".", 0x37), ("/", 0x38),
   ("f1", 0x3A), ("f2", 0x3B), ("f3", 0x3C), ("f4", 0x3D), ("f5", 0x3E), ("f6", 0x3F),
   ("f7", 0x40), ("f8", 0x41), ("f9", 0x42), ("f10", 0x43), ("f11", 0x44), ("f12", 0x45)]

/-- `SHIFTED_KEYCODES` (`program_key.py` lines 39-61), in source order. -/
def SHIFTED_KEYCODES : List (String × Nat) :=
  [("!", 0x96), ("@", 0x97), ("#", 0x98), ("$", 0x99), ("%", 0x9A),
   ("^", 0x9B), ("&", 0x9C), ("*", 0x9D), ("(", 0x9E), (")", 0x9F),
   ("_", 0xA1), ("+", 0xA2), ("\x7b", 0xA3), ("\x7d", 0xA4), ("|", 0xA5),
   (":", 0xA6), ("\"", 0xA7), ("<", 0xA8), (">", 0xA9), ("?", 0xAA),
   ("~", 0x95)]

/-- `UPPERCASE_KEYCODES` (`program_key.py` line 64):
`{chr(ord(A) + i): 0xAB + i for i in range(26)}`. -/
def UPPERCASE_KEYCODES : List (String × Nat) :=
  (List.range 26).map (fun i => (String.singleton (Char.ofNat (65 + i)), 0xAB + i))

/-- Mode tag `MODE_STRING = 0x04` (`program_key.py` line 70). -/
def MODE_STRING : Nat := 0x04

/-- `char_to_keycode` (`program_key.py` lines 209-232): check
`KEY_CODES`, then `UPPERCASE_KEYCODES`, then `SHIFTED_KEYCODES`; `none`
when no table matches. -/
def char_to_keycode (char : String) : Option Nat :=
  match KEY_CODES.lookup char with
  | some k => some k
  | none =>
    match UPPERCASE_KEYCODES.lookup char with
    | some k => some k
    | none => SHIFTED_KEYCODES.lookup char

/-- The key-data building part of `program_string` (`program_key.py`
lines 244-265): resolve every character, skipping the unresolvable ones;
`none` when no keycode resolves (the function returns -1 there);
otherwise `[key_num, MODE_STRING, 0x00]` followed by the keycodes,
zero-padded then truncated to `DATA_LEN` bytes. -/
def program_string_data (key_num : Nat) (text : List String) : Option (List Nat) :=
  let keycodes := text.filterMap char_to_keycode
  if keycodes.isEmpty then none
  else
    let key_data := key_num :: MODE_STRING :: 0x00 :: keycodes
    let remaining := DATA_LEN - key_data.length
    let key_data := if 0 < remaining then key_data ++ List.replicate remaining 0 else key_data
    some (key_data.take DATA_LEN)

/-- `program_string` (`program_key.py` lines 235-269): build the key
data and send it once through `hid_send`; report -1 when no keycode
resolved. -/
def program_string (st : HidState) (key_num : Nat) (text : List String) : Int × HidState :=
  match program_string_data key_num text with
  | none => (-1, st)
  | some key_data => hid_send st key_data

/-- Closed form of the framing: a 53 length byte, then the body truncated
to 53 bytes and zero-padded to 53 bytes, then 10 zero bytes. -/
theorem hid_send_frame_eq (body : List Nat) :
    hid_send_frame body =
      53 :: ((body.take 53 ++ List.replicate (53 - body.length) 0) ++ List.replicate 10 0) := by
  unfold hid_send_frame DATA_LEN
  rw [← List.cons_append]
  by_cases h : body.length < 53
  · have hlen : (body ++ List.replicate (53 - body.length) 0).length = 53 := by
      simp [List.length_append, List.length_replicate]
      omega
    have htake : (body ++ List.replicate (53 - body.length) 0).take 53 =
        body ++ List.replicate (53 - body.length) 0 :=
      List.take_of_length_le (by omega)
    have hbody : body.take 53 = body := List.take_of_length_le (by omega)
    simp only [if_pos h, htake, hlen, hbody, List.length_cons]
  · have h53 : 53 ≤ body.length := by omega
    have htake : (body.take 53).length = 53 := by
      simp [List.length_take]
      omega
    have hz : 53 - body.length = 0 := by omega
    simp only [if_neg h, htake, hz, List.replicate_zero, List.append_nil, List.length_cons]

/-- Length of the pad-and-truncate region of the frame is always 53. -/
theorem frame_core_length (body : List Nat) :
    (body.take 53 ++ List.replicate (53 - body.length) 0).length = 53 := by
  simp [List.length_append, List.length_take, List.length_replicate]
  omega

/-- C1: the claim says `set_custom_color` builds the body
`[0x70, g, r, b]` with green before red, so that `(10,20,30)` yields
`[0x70, 20, 10, 30]`.  The code (`led_control.py` line 131) builds
`data = [0x70, r, g, b]` in logical R,G,B order, contradicting the
module docstring "Custom color command: 0x70 + G + R + B (note: GRB
order, not RGB!)": at `(10,20,30)` the body is `[0x70, 10, 20, 30]` and
not `[0x70, 20, 10, 30]`. -/
theorem set_custom_color_body_is_rgb_order :
    set_custom_color_body 10 20 30 = [0x70, 10, 20, 30] ∧
    set_custom_color_body 10 20 30 ≠ [0x70, 20, 10, 30] := by decide

/-- C8: the single space character is a `KEY_CODES` entry mapping to
0x2C, the same keycode as the named key "space", so `char_to_keycode`
resolves a space instead of skipping it. -/
theorem char_to_keycode_space_alias :
    char_to_keycode " " = some 0x2C ∧
    List.lookup "space" KEY_CODES = some 0x2C ∧
    char_to_keycode " " = char_to_keycode "space" := by decide

/-- C5: the keycode lookup returns the device's fixed values on the
probed tokens, and returns `none` exactly when no table contains the
token. -/
theorem char_to_keycode_table_exact :
    char_to_keycode "a" = some 0x04 ∧
    char_to_keycode "1" = some 0x1E ∧
    char_to_keycode "A" = some 0xAB ∧
    char_to_keycode "Z" = some 0xC4 ∧
    char_to_keycode "!" = some 0x96 ∧
    ∀ c, List.lookup c KEY_CODES = none →
      List.lookup c UPPERCASE_KEYCODES = none →
      List.lookup c SHIFTED_KEYCODES = none →
      char_to_keycode c = none := by
  refine ⟨by decide, by decide, by decide, by decide, by decide, ?_⟩
  intro c h1 h2 h3
  unfold char_to_keycode
  rw [h1, h2, h3]

/-- Witness for C5: the unknown token "qq" is in no table, and the
lookup indeed reports no match. -/
theorem char_to_keycode_table_exact_witness :
    char_to_keycode "qq" = none :=
  char_to_keycode_table_exact.2.2.2.2.2 "qq" (by decide) (by decide) (by decide)

/-- C2: for every body of length 0..200, the framing in `hid_send`
yields exactly 64 bytes: byte 0 is 53, bytes 1..53 are the body
truncated to 53 bytes and zero-padded to 53 bytes, and bytes 54..63 are
zero. -/
theorem hid_send_framing_invariant (body : List Nat) (h : body.length ≤ 200) :
    (hid_send_frame body).length = 64 ∧
    (hid_send_frame body)[0]? = some 53 ∧
    (∀ i, i < 53 → (hid_send_frame body)[i + 1]? = some (body.getD i 0)) ∧
    (∀ i, 54 ≤ i → i < 64 → (hid_send_frame body)[i]? = some 0) := by
  rw [hid_send_frame_eq]
  have hAlen : (body.take 53 ++ List.replicate (53 - body.length) 0).length = 53 :=
    frame_core_length body
  refine ⟨?_, by simp, ?_, ?_⟩
  · simp only [List.length_cons, List.length_append, hAlen, List.length_replicate]
  · intro i hi
    rw [List.getElem?_cons_succ, List.getElem?_append_left (by omega)]
    by_cases hib : i < body.length
    · have hts : i < (body.take 53).length := by
        simp only [List.length_take]
        omega
      rw [List.getElem?_append_left hts, List.getElem?_take_of_lt hi,
        List.getElem?_eq_getElem hib, List.getD_eq_getElem body 0 hib]
    · have hts : (body.take 53).length ≤ i := by
        simp only [List.length_take]
        omega
      rw [List.getElem?_append_right hts, List.getD_eq_default body 0 (by omega)]
      have hrep : i - (body.take 53).length < 53 - body.length := by
        simp only [List.length_take]
        omega
      rw [List.getElem?_replicate_of_lt hrep]
  · intro i h54 h64
    match i, h54 with
    | j + 1, _ =>
      rw [List.getElem?_cons_succ, List.getElem?_append_right (by omega),
        List.getElem?_replicate_of_lt (by omega)]

/-- Witness for C2 at the concrete body `[1, 2, 3]`. -/
theorem hid_send_framing_invariant_witness :
    (hid_send_frame [1, 2, 3]).length = 64 ∧
    (hid_send_frame [1, 2, 3])[0]? = some 53 ∧
    (hid_send_frame [1, 2, 3])[1]? = some 1 ∧
    (hid_send_frame [1, 2, 3])[60]? = some 0 :=
  ⟨(hid_send_framing_invariant [1, 2, 3] (by decide)).1,
   (hid_send_framing_invariant [1, 2, 3] (by decide)).2.1,
   (hid_send_framing_invariant [1, 2, 3] (by decide)).2.2.1 0 (by decide),
   (hid_send_framing_invariant [1, 2, 3] (by decide)).2.2.2 60 (by decide) (by decide)⟩

/-- C10: framing is stable under re-framing: taking the 53 body bytes
(positions 1..53) of a framed payload and framing them again reproduces
the same 64-byte payload. -/
theorem hid_send_frame_reframe_stable (body : List Nat) :
    hid_send_frame (((hid_send_frame body).drop 1).take 53) = hid_send_frame body := by
  rw [hid_send_frame_eq body]
  have hAlen : (body.take 53 ++ List.replicate (53 - body.length) 0).length = 53 :=
    frame_core_length body
  rw [List.drop_one, List.tail_cons, List.take_left' hAlen]
  rw [hid_send_frame_eq]
  rw [List.take_of_length_le (le_of_eq hAlen), hAlen]
  norm_num

/-- Counterexample for C3: a 51-character macro input does not report
any over-capacity or truncation signal; its key data is identical to the
50-character input's, a plain success.  The excess keycode is silently
dropped. -/
theorem program_string_data_51_silent :
    program_string_data 1 (List.replicate 51 "a") = program_string_data 1 (List.replicate 50 "a") ∧
    program_string_data 1 (List.replicate 51 "a") =
      some ([1, 4, 0] ++ List.replicate 50 0x04) := by decide

/-- C3 amended: whenever more than 50 keycodes resolve, `program_string`
silently truncates the key data to the first 50 keycodes after the
3-byte header and returns it as an ordinary success; no MacroTooLong or
truncation signal exists in the code. -/
theorem program_string_data_truncates (key_num : Nat) (text : List String)
    (h : 50 < (text.filterMap char_to_keycode).length) :
    program_string_data key_num text =
      some (key_num :: MODE_STRING :: 0 :: (text.filterMap char_to_keycode).take 50) := by
  unfold program_string_data DATA_LEN
  have hne : (text.filterMap char_to_keycode).isEmpty = false := by
    rw [List.isEmpty_eq_false]
    intro e
    rw [e] at h
    simp at h
  simp only [hne, Bool.false_eq_true, if_false]
  have hlen : (key_num :: MODE_STRING :: 0 :: text.filterMap char_to_keycode).length =
      (text.filterMap char_to_keycode).length + 3 := by
    simp
  have hrem : 53 - (key_num :: MODE_STRING :: 0 :: text.filterMap char_to_keycode).length = 0 := by
    omega
  simp only [hrem, lt_irrefl, if_false]
  rw [List.take_cons (by omega), List.take_cons (by omega), List.take_cons (by omega)]

/-- Witness for the amended C3 at the concrete 51-character input. -/
theorem program_string_data_truncates_witness :
    program_string_data 1 (List.replicate 51 "a") =
      some (1 :: MODE_STRING :: 0 ::
        ((List.replicate 51 "a").filterMap char_to_keycode).take 50) :=
  program_string_data_truncates 1 (List.replicate 51 "a") (by decide)

/-- The read loop collects, in order, the first `n` scripted reads with
a positive count, taking `count` bytes of each buffer. -/
theorem read_config_loop_eq (n : Nat) (reads : List (Int × List Nat)) :
    read_config_loop n reads =
      ((reads.take n).filter (fun r => decide (0 < r.1))).map (fun r => r.2.take r.1.toNat) := by
  induction reads generalizing n with
  | nil => cases n <;> simp [read_config_loop]
  | cons hd tl ih =>
    cases n with
    | zero => simp [read_config_loop]
    | succ m =>
      obtain ⟨r, buf⟩ := hd
      by_cases hr : 0 < r
      · simp [read_config_loop, hr, ih, List.filter_cons]
      · simp [read_config_loop, hr, ih, List.filter_cons]

/-- Counterexample for C4: for the simulated transport of the claim
(data for slots 0, 2, 4; timeouts for 1, 3, 5), `read_config` returns a
3-element list, not a 6-element list with absent slots; slot 2's data
lands at index 1, so positional indices are lost. -/
theorem read_config_partial_drops_slots :
    read_config
      [(64, List.replicate 64 10), (0, List.replicate 64 0),
       (64, List.replicate 64 20), (0, List.replicate 64 0),
       (64, List.replicate 64 30), (0, List.replicate 64 0)] =
      [List.replicate 64 10, List.replicate 64 20, List.replicate 64 30] ∧
    (read_config
      [(64, List.replicate 64 10), (0, List.replicate 64 0),
       (64, List.replicate 64 20), (0, List.replicate 64 0),
       (64, List.replicate 64 30), (0, List.replicate 64 0)]).length ≠ 6 := by decide

/-- C4 amended: `read_config` keeps only the reads (among the first 6)
that report a positive byte count, in read order; reads reporting zero
or negative bytes are dropped entirely, so a partial read-back yields a
shorter list and the populated slots do not keep their positional
index. -/
theorem read_config_keeps_only_positive_reads (reads : List (Int × List Nat)) :
    read_config reads =
      ((reads.take 6).filter (fun r => decide (0 < r.1))).map (fun r => r.2.take r.1.toNat) :=
  read_config_loop_eq 6 reads

/-- C9: under the HID read contract (each read reports at most the
64-byte buffer size and the buffer holds 64 bytes), `read_config`
returns at most 6 elements; every element is non-empty, at most 64
bytes long, and exactly as long as the positive count reported by its
read. -/
theorem read_config_slot_invariants (reads : List (Int × List Nat))
    (h : ∀ r ∈ reads, r.1 ≤ 64 ∧ r.2.length = 64) :
    (read_config reads).length ≤ 6 ∧
    (∀ c ∈ read_config reads, 0 < c.length ∧ c.length ≤ 64) ∧
    (read_config reads).length =
      ((reads.take 6).filter (fun r => decide (0 < r.1))).length ∧
    ∀ i, (hi : i < (read_config reads).length) →
      (hj : i < ((reads.take 6).filter (fun r => decide (0 < r.1))).length) →
      ((read_config reads).get ⟨i, hi⟩).length =
        ((((reads.take 6).filter (fun r => decide (0 < r.1))).get ⟨i, hj⟩).1).toNat := by
  have hprops : ∀ r ∈ (reads.take 6).filter (fun r => decide (0 < r.1)),
      (r.2.take r.1.toNat).length = r.1.toNat ∧ 0 < r.1.toNat ∧ r.1.toNat ≤ 64 := by
    intro r hr
    rw [List.mem_filter] at hr
    have hmem : r ∈ reads := List.take_subset 6 reads hr.1
    have hpos : 0 < r.1 := of_decide_eq_true hr.2
    obtain ⟨hle, hbuf⟩ := h r hmem
    refine ⟨?_, by omega, by omega⟩
    rw [List.length_take, hbuf]
    omega
  have heq := read_config_loop_eq 6 reads
  rw [read_config] at *
  refine ⟨?_, ?_, ?_, ?_⟩
  · rw [heq, List.length_map]
    calc ((reads.take 6).filter (fun r => decide (0 < r.1))).length
        ≤ (reads.take 6).length := List.length_filter_le _ _
      _ ≤ 6 := by
          rw [List.length_take]
          omega
  · intro c hc
    rw [heq] at hc
    obtain ⟨r, hr, hrc⟩ := List.mem_map.mp hc
    obtain ⟨hlen, hpos, hle⟩ := hprops r hr
    rw [← hrc, hlen]
    exact ⟨hpos, hle⟩
  · rw [heq, List.length_map]
  · intro i hi hj
    rw [List.get_eq_getElem, List.get_eq_getElem]
    simp only [heq, List.getElem_map]
    have hmem := List.get_mem ((reads.take 6).filter (fun r => decide (0 < r.1))) i hj
    rw [List.get_eq_getElem] at hmem
    exact (hprops _ hmem).1

/-- Witness for C9 at the one-read transport reporting 3 bytes of a
64-byte buffer. -/
theorem read_config_slot_invariants_witness :
    (read_config [((3 : Int), List.replicate 64 9)]).length ≤ 6 ∧
    (read_config [((3 : Int), List.replicate 64 9)]).length = 1 :=
  ⟨(read_config_slot_invariants [((3 : Int), List.replicate 64 9)] (by decide)).1,
   (read_config_slot_invariants [((3 : Int), List.replicate 64 9)] (by decide)).2.2.1⟩

/-- Counterexample for C6: a transport failing the first write and one
failing the second write produce exactly the same result and final
state for both `set_rgb_mode` and `set_custom_color` — a bare `false`
with identical write logs — so the operations cannot report which of
the two sends failed. -/
theorem double_send_failure_indistinct :
    (set_rgb_mode ⟨[0, 5], []⟩ 3).1 = false ∧
    (set_custom_color ⟨[0, 5], []⟩ 10 20 30).1 = false ∧
    set_rgb_mode ⟨[0, 5], []⟩ 3 = set_rgb_mode ⟨[5, 0], []⟩ 3 ∧
    set_custom_color ⟨[0, 5], []⟩ 10 20 30 = set_custom_color ⟨[5, 0], []⟩ 10 20 30 := by
  decide

/-- C6 amended: every mode-select and custom-color operation writes its
framed command exactly twice and returns `true` exactly when both
writes report a positive byte count; on any other outcome it returns a
plain `false` that does not say which of the two sends failed. -/
theorem double_send_contract (r1 r2 : Int) (rest : List Int) (w : List (List Nat))
    (m r g b : Nat) :
    ((set_rgb_mode ⟨r1 :: r2 :: rest, w⟩ m).2.written =
        w ++ [hid_send_frame (set_rgb_mode_body m), hid_send_frame (set_rgb_mode_body m)] ∧
      ((set_rgb_mode ⟨r1 :: r2 :: rest, w⟩ m).1 = true ↔ 0 < r1 ∧ 0 < r2)) ∧
    ((set_custom_color ⟨r1 :: r2 :: rest, w⟩ r g b).2.written =
        w ++ [hid_send_frame (set_custom_color_body r g b),
          hid_send_frame (set_custom_color_body r g b)] ∧
      ((set_custom_color ⟨r1 :: r2 :: rest, w⟩ r g b).1 = true ↔ 0 < r1 ∧ 0 < r2)) := by
  simp [set_rgb_mode, set_custom_color, hid_send, hid_write, List.append_assoc]

/-- Witness for the amended C6: both scripted writes positive gives a
`true` result. -/
theorem double_send_contract_witness :
    (set_rgb_mode ⟨[(2 : Int), 3], []⟩ 1).1 = true :=
  ((double_send_contract 2 3 [] [] 1 0 0 0).1.2).mpr ⟨by decide, by decide⟩

/-- C7: `find_device` returns the path of the first enumerated
descriptor whose usage page is 0xFF00, and reports `none` exactly when
no descriptor has usage page 0xFF00. -/
theorem find_device_first_ff00 (devs : List hid_device_info) :
    find_device devs =
      (devs.find? (fun d => decide (d.usage_page = 0xFF00))).map (fun d => d.path) ∧
    (find_device devs = none ↔ ∀ d ∈ devs, d.usage_page ≠ 0xFF00) := by
  have h1 : find_device devs =
      (devs.find? (fun d => decide (d.usage_page = 0xFF00))).map (fun d => d.path) := by
    induction devs with
    | nil => rfl
    | cons d rest ih =>
      by_cases hd : d.usage_page = 0xFF00
      · rw [find_device, if_pos hd, List.find?_cons_of_pos rest (by simpa using hd)]
        rfl
      · rw [find_device, if_neg hd, List.find?_cons_of_neg rest (by simpa using hd), ih]
  refine ⟨h1, ?_⟩
  rw [h1, Option.map_eq_none', List.find?_eq_none]
  simp

/-- Witness for C7: with usage pages 0x0001, 0xFF00, 0x0002 enumerated
in that order, the 0xFF00 descriptor's path is selected. -/
theorem find_device_first_ff00_witness :
    find_device
      [⟨"p0", 0x8808, 0x6601, 0x0001, 0, 0⟩,
       ⟨"p1", 0x8808, 0x6601, 0xFF00, 0, 0⟩,
       ⟨"p2", 0x8808, 0x6601, 0x0002, 0, 0⟩] = some "p1" :=
  ((find_device_first_ff00
      [⟨"p0", 0x8808, 0x6601, 0x0001, 0, 0⟩,
       ⟨"p1", 0x8808, 0x6601, 0xFF00, 0, 0⟩,
       ⟨"p2", 0x8808, 0x6601, 0x0002, 0, 0⟩]).1).trans (by decide)
